import Mathlib

/-!
Verification of the PT-MAP training driver (`train_cifar.py`).

The file shallowly embeds the parts of the script that the properties
below concern: the Python-dict state remap done on the S2M2_R resume
path, the checkpoint-save cadence of both training drivers, the
`mixup_criterion` loss, the four-way rotation augmentation of
`train_rotation`, its per-batch loss, the evaluation subsampling, the
model/method dispatch in `__main__`, the `None` auxiliary-state argument
of the rotation branch, the epoch loop bounds, and the checkpoint
record round-trip.

Tensors are modelled as lists of rationals; images as channel-indexed
square rational matrices; state dicts as association lists keyed by
parameter name.  External framework primitives (the loss function, the
backbone forward pass) are taken as abstract function parameters,
exactly as the script receives them.
-/

/-- A parameter tensor, modelled as its flat list of values. -/
abbrev Tensor : Type := List ℚ

/-- A PyTorch `state_dict`: a mapping from parameter names to tensors,
modelled as an association list with unique keys (first match wins). -/
abbrev StateDict : Type := List (String × Tensor)

/-- Python dict read `d[key]`: `some` value on a hit, `none` where Python
would raise `KeyError`. -/
def dictGet : StateDict → String → Option Tensor
  | [], _ => none
  | (k, v) :: rest, key => if k = key then some v else dictGet rest key

/-- Python dict write `d[key] = val`: overwrite in place when the key is
present, append otherwise. -/
def dictSet : StateDict → String → Tensor → StateDict
  | [], key, val => [(key, val)]
  | (k, v) :: rest, key, val =>
    if k = key then (key, val) :: rest else (k, v) :: dictSet rest key val

/-- The S2M2_R resume-path remap (`train_cifar.py` lines 253-254):

    state['module.linear.L.weight_g'] = state['module.linear.weight']
    state['module.linear.L.weight_v'] = state['module.linear.bias']

`none` when a read would raise `KeyError`. -/
def remapResumeState (state : StateDict) : Option StateDict :=
  match dictGet state "module.linear.weight", dictGet state "module.linear.bias" with
  | some w, some b =>
    some (dictSet (dictSet state "module.linear.L.weight_g" w)
      "module.linear.L.weight_v" b)
  | _, _ => none

/-- The epoch loop `for epoch in range(start_epoch, stop_epoch)` shared by
both training drivers (`train_cifar.py` lines 34 and 120). -/
def epochsRun (startEpoch stopEpoch : ℕ) : List ℕ :=
  List.range' startEpoch (stopEpoch - startEpoch)

/-- Epochs at which `train_manifold_mixup` writes a checkpoint
(`train_cifar.py` line 69): `(epoch % params.save_freq == 0) or
(epoch == stop_epoch - 1)`, inside the epoch loop. -/
def mixupSavedEpochs (saveFreq startEpoch stopEpoch : ℕ) : List ℕ :=
  (epochsRun startEpoch stopEpoch).filter
    (fun epoch => epoch % saveFreq == 0 || epoch == stopEpoch - 1)

/-- Epochs at which `train_rotation` writes a checkpoint
(`train_cifar.py` line 170); the condition is identical to the mixup
driver's. -/
def rotationSavedEpochs (saveFreq startEpoch stopEpoch : ℕ) : List ℕ :=
  (epochsRun startEpoch stopEpoch).filter
    (fun epoch => epoch % saveFreq == 0 || epoch == stopEpoch - 1)

/-- Follows the claim's words, NOT the source: checkpoints at epochs
`s, s+F, s+2F, ...` (offsets from the start epoch divisible by F) and at
`e-1`. Stated for comparison with `mixupSavedEpochs`. -/
def claimSavedEpochs (saveFreq startEpoch stopEpoch : ℕ) : List ℕ :=
  (epochsRun startEpoch stopEpoch).filter
    (fun epoch => (epoch - startEpoch) % saveFreq == 0 || epoch == stopEpoch - 1)

/-- The inner `mixup_criterion` of `train_manifold_mixup`
(`train_cifar.py` lines 27-28): `lam * criterion(pred, y_a) +
(1 - lam) * criterion(pred, y_b)`, with the criterion (the framework's
cross-entropy loss) received as a function argument. -/
def mixup_criterion {P L : Type} (criterion : P → L → ℚ) (pred : P)
    (y_a y_b : L) (lam : ℚ) : ℚ :=
  lam * criterion pred y_a + (1 - lam) * criterion pred y_b

/-- A concrete stand-in criterion used to witness C3. -/
def critExample : ℕ → ℕ → ℚ := fun p l => (p : ℚ) + l

/-- The start epoch the entry point supplies to `train_manifold_mixup` on
resume (`train_cifar.py` lines 249 and 271): `tmp['epoch'] + 1`. -/
def mixupEntryStartEpoch (resumedEpoch : ℕ) : ℕ := resumedEpoch + 1

/-- The stop bound the entry point supplies (`train_cifar.py` line 287):
`start_epoch + stop_epoch`. -/
def mixupEntryStopBound (resumedEpoch stopEpochParam : ℕ) : ℕ :=
  mixupEntryStartEpoch resumedEpoch + stopEpochParam

/-- A CHW image tensor with `c` channels over an `n` × `n` spatial grid
(the script runs on square 32 × 32 images). -/
abbrev Image (c n : ℕ) : Type := Fin c → Fin n → Fin n → ℚ

/-- `x.transpose(2, 1)`: swap the two spatial dimensions. -/
def transpose21 {c n : ℕ} (x : Image c n) : Image c n := fun ch i j => x ch j i

/-- `x.flip(1)`: reverse the first spatial dimension. -/
def flip1 {c n : ℕ} (x : Image c n) : Image c n := fun ch i j => x ch i.rev j

/-- One quarter-turn, `x[j].transpose(2, 1).flip(1)` (`train_cifar.py`
line 133); the 180° and 270° images are obtained by iterating it. -/
def rot90 {c n : ℕ} (x : Image c n) : Image c n := flip1 (transpose21 x)

/-- The rotation-augmentation loop of `train_rotation` (`train_cifar.py`
lines 127-142): for each (image, label) of the batch, emit the image and
its three further quarter-turns, replicate the class label four times,
and attach rotation labels 0, 1, 2, 3. Returns `(x_, y_, a_)`. -/
def rotAugment {c n : ℕ} :
    List (Image c n × ℕ) → List (Image c n) × List ℕ × List ℕ
  | [] => ([], [], [])
  | (x, y) :: rest =>
    let t := rotAugment rest
    (x :: rot90 x :: rot90 (rot90 x) :: rot90 (rot90 (rot90 x)) :: t.1,
     y :: y :: y :: y :: t.2.1,
     0 :: 1 :: 2 :: 3 :: t.2.2)

/-- A concrete 1-channel 2 × 2 image used to witness C4. -/
def imgExample : Image 1 2 := fun _ i j => (i.1 : ℚ) + 2 * j.1

/-- The per-batch computation of `train_rotation` (`train_cifar.py`
lines 149-155): forward the augmented batch through the backbone to get
(embeddings, class scores), get rotation scores from the auxiliary head,
then `loss = 0.5 * closs + 0.5 * rloss` with `closs = lossfn(scores, y_)`
and `rloss = lossfn(rotate_scores, a_)`. The backbone, the auxiliary
head and the framework's cross-entropy are abstract collaborators. -/
def rotationBatchLoss {c n : ℕ} {F S : Type}
    (model : List (Image c n) → F × S) (rotate_classifier : F → S)
    (lossfn : S → List ℕ → ℚ) (batch : List (Image c n × ℕ)) : ℚ :=
  let t := rotAugment batch
  let fs := model t.1
  let rotate_scores := rotate_classifier fs.1
  let rloss := lossfn rotate_scores t.2.2
  let closs := lossfn fs.2 t.2.1
  1 / 2 * closs + 1 / 2 * rloss

/-- Held-out batch indices processed by the rotation driver's post-epoch
evaluation (`train_cifar.py` lines 179-180): the loop enumerates all
batches of the held-out stream and processes those with index `i < 10`. -/
def rotationEvalBatches (numBatches : ℕ) : List ℕ :=
  (List.range numBatches).filter (fun i => i < 10)

/-- The two backbone architectures the entry point can construct
(`train_cifar.py` lines 235-238), each built with `num_classes=64`. -/
inductive BackboneModel where
  | wrn28_10 (numClasses : ℕ)
  | resnet18 (numClasses : ℕ)
deriving DecidableEq

/-- The backbone dispatch in `__main__` (lines 235-238): an if/elif chain
with no else branch, so an unrecognized model name assigns nothing —
`none` models the `model` variable being left undefined. -/
def selectModel (modelName : String) : Option BackboneModel :=
  if modelName = "WideResNet28_10" then some (BackboneModel.wrn28_10 64)
  else if modelName = "ResNet18" then some (BackboneModel.resnet18 64)
  else none

/-- The rotation-classifier dispatch in `train_rotation` (lines 98-101):
`Linear(640, 4)` or `Linear(512, 4)` by model name; an unrecognized name
leaves `rotate_classifier` undefined (`none` is its feature width). -/
def selectRotateClassifierDim (modelName : String) : Option ℕ :=
  if modelName = "WideResNet28_10" then some 640
  else if modelName = "ResNet18" then some 512
  else none

/-- The two training regimens. -/
inductive TrainMethod where
  | s2m2R
  | rotationMethod
deriving DecidableEq

/-- The method dispatch in `__main__` (lines 240 and 291): if/elif with
no else branch; an unrecognized method name selects no branch. -/
def selectMethod (methodName : String) : Option TrainMethod :=
  if methodName = "S2M2_R" then some TrainMethod.s2m2R
  else if methodName = "rotation" then some TrainMethod.rotationMethod
  else none

/-- A checkpoint record as both drivers write it: epoch index, backbone
`state_dict`, and (rotation driver only) the auxiliary head's
`state_dict` under the 'rotate' key. -/
structure CheckpointRecord where
  epoch : ℕ
  state : StateDict
  rotate : Option StateDict
deriving DecidableEq

/-- The arguments the rotation branch of `__main__` passes to
`train_rotation` (`train_cifar.py` lines 297-306): on resume the start
epoch comes from the loaded checkpoint (`tmp['epoch'] + 1`), but the
saved-state argument in the call at line 306 is the literal `None`,
never the loaded record. -/
def rotationBranchArgs (resume : Bool) (loaded : CheckpointRecord)
    (paramsStartEpoch : ℕ) : ℕ × Option CheckpointRecord :=
  (if resume then loaded.epoch + 1 else paramsStartEpoch, none)

/-- The auxiliary-head resume test of `train_rotation`
(`train_cifar.py` line 106): `tmp is not None and 'rotate' in tmp`. -/
def rotateHeadLoadsSaved (tmp : Option CheckpointRecord) : Bool :=
  match tmp with
  | some t => t.rotate.isSome
  | none => false

/-- Modelled from the spec: `torch.save` and the filesystem are external
collaborators; per §2 the checkpoint store "serializes/deserializes
{epoch index, model parameters, optional auxiliary-head parameters}
to/from a path keyed by epoch number". The store is a map from the epoch
key (the path `<checkpoint_dir>/<epoch>.tar`) to the stored record;
saving binds the key to the record. -/
def torchSave (store : ℕ → Option CheckpointRecord) (epochKey : ℕ)
    (rec : CheckpointRecord) : ℕ → Option CheckpointRecord :=
  fun k => if k = epochKey then some rec else store k

/-- Modelled from the spec: `torch.load` reads back the record stored at
an epoch key. -/
def torchLoad (store : ℕ → Option CheckpointRecord) (epochKey : ℕ) :
    Option CheckpointRecord :=
  store epochKey

/-- The record `train_manifold_mixup` saves (`train_cifar.py` line 71):
`{'epoch': epoch, 'state': model.state_dict()}`. -/
def mixupCheckpointRecord (epoch : ℕ) (modelState : StateDict) :
    CheckpointRecord :=
  ⟨epoch, modelState, none⟩

/-- The record `train_rotation` saves (`train_cifar.py` line 172):
`{'epoch': epoch, 'state': ..., 'rotate': ...}`. -/
def rotationCheckpointRecord (epoch : ℕ) (modelState rotateState : StateDict) :
    CheckpointRecord :=
  ⟨epoch, modelState, some rotateState⟩

theorem dictGet_dictSet_same (d : StateDict) (k : String) (v : Tensor) :
    dictGet (dictSet d k v) k = some v := by
  induction d with
  | nil => simp [dictGet, dictSet]
  | cons hd tl ih =>
    obtain ⟨k', v'⟩ := hd
    by_cases h : k' = k
    · simp [dictGet, dictSet, h]
    · simp [dictGet, dictSet, h, ih]

theorem dictGet_dictSet_other (d : StateDict) (k k' : String) (v : Tensor)
    (h : k' ≠ k) : dictGet (dictSet d k v) k' = dictGet d k' := by
  induction d with
  | nil => simp [dictGet, dictSet, Ne.symm h]
  | cons hd tl ih =>
    obtain ⟨k0, v0⟩ := hd
    by_cases h0 : k0 = k
    · subst h0
      simp [dictGet, dictSet, Ne.symm h]
    · simp [dictGet, dictSet, h0, ih]

/-- C1: on the mixup resume path, a loaded state dict holding
`module.linear.weight` and `module.linear.bias` is remapped, before
loading, to one that additionally holds `module.linear.L.weight_g` and
`module.linear.L.weight_v` carrying the underlying values of the
original linear-layer parameters (the weight's values under the
direction/magnitude naming `weight_g`, the bias's under `weight_v`),
the original entries left intact. -/
theorem remap_resume_state_carries_linear_values (state : StateDict)
    (w b : Tensor)
    (hw : dictGet state "module.linear.weight" = some w)
    (hb : dictGet state "module.linear.bias" = some b) :
    ∃ s', remapResumeState state = some s' ∧
      dictGet s' "module.linear.L.weight_g" = some w ∧
      dictGet s' "module.linear.L.weight_v" = some b ∧
      dictGet s' "module.linear.weight" = some w ∧
      dictGet s' "module.linear.bias" = some b := by
  refine ⟨_, by rw [remapResumeState, hw, hb], ?_, ?_, ?_, ?_⟩
  · rw [dictGet_dictSet_other _ _ _ _ (by decide), dictGet_dictSet_same]
  · exact dictGet_dictSet_same _ _ _
  · rw [dictGet_dictSet_other _ _ _ _ (by decide),
      dictGet_dictSet_other _ _ _ _ (by decide)]
    exact hw
  · rw [dictGet_dictSet_other _ _ _ _ (by decide),
      dictGet_dictSet_other _ _ _ _ (by decide)]
    exact hb

/-- Witness for C1 on a concrete two-entry state dict. -/
theorem remap_resume_state_carries_linear_values_witness :
    dictGet [("module.linear.weight", ([1, 2] : List ℚ)),
        ("module.linear.bias", ([3] : List ℚ))] "module.linear.weight"
      = some ([1, 2] : List ℚ) ∧
    dictGet [("module.linear.weight", ([1, 2] : List ℚ)),
        ("module.linear.bias", ([3] : List ℚ))] "module.linear.bias"
      = some ([3] : List ℚ) ∧
    ∃ s', remapResumeState [("module.linear.weight", ([1, 2] : List ℚ)),
        ("module.linear.bias", ([3] : List ℚ))] = some s' ∧
      dictGet s' "module.linear.L.weight_g" = some ([1, 2] : List ℚ) ∧
      dictGet s' "module.linear.L.weight_v" = some ([3] : List ℚ) ∧
      dictGet s' "module.linear.weight" = some ([1, 2] : List ℚ) ∧
      dictGet s' "module.linear.bias" = some ([3] : List ℚ) :=
  ⟨by decide, by decide,
    remap_resume_state_carries_linear_values _ _ _ (by decide) (by decide)⟩

theorem saved_epochs_mem (F s e ep : ℕ) :
    (ep ∈ (epochsRun s e).filter
        (fun epoch => epoch % F == 0 || epoch == e - 1)) ↔
      s ≤ ep ∧ ep < e ∧ (F ∣ ep ∨ ep = e - 1) := by
  simp only [epochsRun, List.mem_filter, List.mem_range'_1, Bool.or_eq_true,
    beq_iff_eq, ← Nat.dvd_iff_mod_eq_zero]
  constructor
  · rintro ⟨⟨h1, h2⟩, h3⟩
    exact ⟨h1, by omega, h3⟩
  · rintro ⟨h1, h2, h3⟩
    exact ⟨⟨h1, by omega⟩, h3⟩

/-- C2 counterexample: for a run with save_freq F = 2 over the epoch
range [1, 6), the drivers write checkpoints at epochs 2, 4, 5 (multiples
of F, plus the last epoch), while the claim's set s, s+F, ... and e-1 is
{1, 3, 5}: epoch 1 = s gets no checkpoint, epoch 2 gets one. -/
theorem checkpoint_cadence_counterexample :
    mixupSavedEpochs 2 1 6 = [2, 4, 5] ∧
    rotationSavedEpochs 2 1 6 = [2, 4, 5] ∧
    claimSavedEpochs 2 1 6 = [1, 3, 5] ∧
    1 ∉ mixupSavedEpochs 2 1 6 ∧ 1 ∉ rotationSavedEpochs 2 1 6 ∧
    1 ∈ claimSavedEpochs 2 1 6 := by decide

/-- C2 amended: for every run of either driver with save frequency F > 0
over the epoch range [s, e), a checkpoint is written exactly at the
epochs of [s, e) that are divisible by F, and at epoch e - 1, and at no
other epoch. -/
theorem checkpoint_cadence_amended (saveFreq startEpoch stopEpoch epoch : ℕ)
    (hF : 0 < saveFreq) :
    (epoch ∈ mixupSavedEpochs saveFreq startEpoch stopEpoch ↔
      startEpoch ≤ epoch ∧ epoch < stopEpoch ∧
        (saveFreq ∣ epoch ∨ epoch = stopEpoch - 1)) ∧
    (epoch ∈ rotationSavedEpochs saveFreq startEpoch stopEpoch ↔
      startEpoch ≤ epoch ∧ epoch < stopEpoch ∧
        (saveFreq ∣ epoch ∨ epoch = stopEpoch - 1)) :=
  ⟨saved_epochs_mem saveFreq startEpoch stopEpoch epoch,
   saved_epochs_mem saveFreq startEpoch stopEpoch epoch⟩

/-- Witness for C2's amended theorem at F = 2, range [0, 5), epoch 4. -/
theorem checkpoint_cadence_amended_witness :
    0 < 2 ∧
    ((4 ∈ mixupSavedEpochs 2 0 5 ↔ 0 ≤ 4 ∧ 4 < 5 ∧ (2 ∣ 4 ∨ 4 = 5 - 1)) ∧
     (4 ∈ rotationSavedEpochs 2 0 5 ↔ 0 ≤ 4 ∧ 4 < 5 ∧ (2 ∣ 4 ∨ 4 = 5 - 1))) :=
  ⟨by decide, checkpoint_cadence_amended 2 0 5 4 (by decide)⟩

/-- C3: for every prediction, label orderings (a, b) and lambda in
[0, 1], the per-batch mixup loss is lambda·CE(pred, a) +
(1-lambda)·CE(pred, b); at lambda = 0 it is CE(pred, b); at lambda = 1 it
is CE(pred, a). -/
theorem mixup_criterion_affine {P L : Type} (criterion : P → L → ℚ)
    (pred : P) (y_a y_b : L) (lam : ℚ) (h0 : 0 ≤ lam) (h1 : lam ≤ 1) :
    mixup_criterion criterion pred y_a y_b lam =
      lam * criterion pred y_a + (1 - lam) * criterion pred y_b ∧
    (lam = 0 → mixup_criterion criterion pred y_a y_b lam = criterion pred y_b) ∧
    (lam = 1 → mixup_criterion criterion pred y_a y_b lam = criterion pred y_a) := by
  refine ⟨rfl, ?_, ?_⟩ <;> intro h <;> subst h <;> simp [mixup_criterion]

/-- Witness for C3 at lambda = 1/2 on concrete inputs. -/
theorem mixup_criterion_affine_witness :
    (0 : ℚ) ≤ 1 / 2 ∧ (1 / 2 : ℚ) ≤ 1 ∧
    (mixup_criterion critExample 2 1 3 (1 / 2) =
        (1 / 2) * critExample 2 1 + (1 - 1 / 2) * critExample 2 3 ∧
      ((1 / 2 : ℚ) = 0 →
        mixup_criterion critExample 2 1 3 (1 / 2) = critExample 2 3) ∧
      ((1 / 2 : ℚ) = 1 →
        mixup_criterion critExample 2 1 3 (1 / 2) = critExample 2 1)) :=
  ⟨by norm_num, by norm_num,
    mixup_criterion_affine critExample 2 1 3 (1 / 2) (by norm_num) (by norm_num)⟩

/-- C9: the mixup driver's epoch loop runs exactly
stop_epoch - start_epoch iterations, one per epoch index in
[start_epoch, stop_epoch), and with the entry point's wiring
(start = resumed + 1, stop bound = start + stop_epoch) exactly
stop_epoch iterations. -/
theorem manifold_mixup_epoch_count (s e r stopEpochParam : ℕ) :
    (epochsRun s e).length = e - s ∧
    (∀ ep, ep ∈ epochsRun s e ↔ s ≤ ep ∧ ep < e) ∧
    mixupEntryStartEpoch r = r + 1 ∧
    mixupEntryStopBound r stopEpochParam = mixupEntryStartEpoch r + stopEpochParam ∧
    (epochsRun (mixupEntryStartEpoch r)
        (mixupEntryStopBound r stopEpochParam)).length = stopEpochParam := by
  refine ⟨by simp [epochsRun], ?_, rfl, rfl, ?_⟩
  · intro ep
    simp only [epochsRun, List.mem_range'_1]
    omega
  · simp [epochsRun, mixupEntryStartEpoch, mixupEntryStopBound]

theorem rot90_apply {c n : ℕ} (x : Image c n) (ch : Fin c) (i j : Fin n) :
    rot90 x ch i j = x ch j i.rev := rfl

/-- Four quarter-turns return the original image. -/
theorem rot90_four {c n : ℕ} (x : Image c n) :
    rot90 (rot90 (rot90 (rot90 x))) = x := by
  funext ch i j
  simp [rot90, flip1, transpose21, Fin.rev_rev]

theorem rotAugment_cons {c n : ℕ} (x : Image c n) (y : ℕ)
    (b : List (Image c n × ℕ)) :
    rotAugment ((x, y) :: b) =
      (x :: rot90 x :: rot90 (rot90 x) :: rot90 (rot90 (rot90 x)) ::
        (rotAugment b).1,
       y :: y :: y :: y :: (rotAugment b).2.1,
       0 :: 1 :: 2 :: 3 :: (rotAugment b).2.2) := rfl

theorem rotAugment_lengths {c n : ℕ} (b : List (Image c n × ℕ)) :
    (rotAugment b).1.length = 4 * b.length ∧
    (rotAugment b).2.1.length = 4 * b.length ∧
    (rotAugment b).2.2.length = 4 * b.length := by
  induction b with
  | nil => simp [rotAugment]
  | cons hd tl ih =>
    obtain ⟨x, y⟩ := hd
    simp only [rotAugment_cons, List.length_cons, List.length]
    omega

theorem drop_four {α : Type} (a b' c' d' : α) (l : List α) (m : ℕ) :
    List.drop (4 * (m + 1)) (a :: b' :: c' :: d' :: l) = List.drop (4 * m) l := by
  rw [show 4 * (m + 1) = 4 * m + 1 + 1 + 1 + 1 by ring]
  simp [List.drop_succ_cons]

theorem rotAugment_slices {c n : ℕ} (b : List (Image c n × ℕ)) (j : ℕ)
    (x : Image c n) (y : ℕ) (h : b[j]? = some (x, y)) :
    ((rotAugment b).1.drop (4 * j)).take 4 =
      [x, rot90 x, rot90 (rot90 x), rot90 (rot90 (rot90 x))] ∧
    ((rotAugment b).2.1.drop (4 * j)).take 4 = [y, y, y, y] ∧
    ((rotAugment b).2.2.drop (4 * j)).take 4 = [0, 1, 2, 3] := by
  induction b generalizing j with
  | nil => simp at h
  | cons hd tl ih =>
    obtain ⟨x0, y0⟩ := hd
    cases j with
    | zero =>
      rw [List.getElem?_cons_zero, Option.some_inj, Prod.mk.injEq] at h
      obtain ⟨rfl, rfl⟩ := h
      rw [rotAugment_cons]
      simp
    | succ j' =>
      rw [List.getElem?_cons_succ] at h
      rw [rotAugment_cons]
      obtain ⟨h1, h2, h3⟩ := ih j' h
      exact ⟨by rw [drop_four, h1], by rw [drop_four, h2], by rw [drop_four, h3]⟩

/-- C4: the rotation augmentation turns an n-image batch into a 4n-sample
batch in which, for each source image at position j, positions 4j..4j+3
hold its four rotations (0°, one, two and three quarter-turns — four
quarter-turns being the identity), all four carry the source's class
label, and the rotation labels there are 0, 1, 2, 3. -/
theorem rotation_augment_quadruples {c n : ℕ} (batch : List (Image c n × ℕ))
    (j : ℕ) (x : Image c n) (y : ℕ) (hj : batch[j]? = some (x, y)) :
    (rotAugment batch).1.length = 4 * batch.length ∧
    (rotAugment batch).2.1.length = 4 * batch.length ∧
    (rotAugment batch).2.2.length = 4 * batch.length ∧
    ((rotAugment batch).1.drop (4 * j)).take 4 =
      [x, rot90 x, rot90 (rot90 x), rot90 (rot90 (rot90 x))] ∧
    ((rotAugment batch).2.1.drop (4 * j)).take 4 = [y, y, y, y] ∧
    ((rotAugment batch).2.2.drop (4 * j)).take 4 = [0, 1, 2, 3] ∧
    rot90 (rot90 (rot90 (rot90 x))) = x := by
  obtain ⟨l1, l2, l3⟩ := rotAugment_lengths batch
  obtain ⟨s1, s2, s3⟩ := rotAugment_slices batch j x y hj
  exact ⟨l1, l2, l3, s1, s2, s3, rot90_four x⟩

/-- Witness for C4 on a one-image batch. -/
theorem rotation_augment_quadruples_witness :
    ([(imgExample, 3)] : List (Image 1 2 × ℕ))[0]? = some (imgExample, 3) ∧
    ((rotAugment [(imgExample, 3)]).1.length = 4 * 1 ∧
     (rotAugment [(imgExample, 3)]).2.1.length = 4 * 1 ∧
     (rotAugment [(imgExample, 3)]).2.2.length = 4 * 1 ∧
     ((rotAugment [(imgExample, 3)]).1.drop (4 * 0)).take 4 =
       [imgExample, rot90 imgExample, rot90 (rot90 imgExample),
        rot90 (rot90 (rot90 imgExample))] ∧
     ((rotAugment [(imgExample, 3)]).2.1.drop (4 * 0)).take 4 = [3, 3, 3, 3] ∧
     ((rotAugment [(imgExample, 3)]).2.2.drop (4 * 0)).take 4 = [0, 1, 2, 3] ∧
     rot90 (rot90 (rot90 (rot90 imgExample))) = imgExample) := by
  refine ⟨rfl, ?_⟩
  have h : (([(imgExample, 3)] : List (Image 1 2 × ℕ))[0]? = some (imgExample, 3)) := rfl
  simpa using rotation_augment_quadruples [(imgExample, 3)] 0 imgExample 3 h

theorem rotAugment_class_labels {c n : ℕ} (b : List (Image c n × ℕ)) :
    (rotAugment b).2.1 = b.flatMap (fun p => [p.2, p.2, p.2, p.2]) := by
  induction b with
  | nil => simp [rotAugment]
  | cons hd tl ih =>
    obtain ⟨x, y⟩ := hd
    simp [rotAugment_cons, ih]

theorem rotAugment_rot_labels {c n : ℕ} (b : List (Image c n × ℕ)) :
    (rotAugment b).2.2 = b.flatMap (fun _ => [0, 1, 2, 3]) := by
  induction b with
  | nil => simp [rotAugment]
  | cons hd tl ih =>
    obtain ⟨x, y⟩ := hd
    simp [rotAugment_cons, ih]

/-- C5: the loss backpropagated by the rotation driver on each batch is
0.5 · CE(class logits, the class labels replicated four times per source
image) + 0.5 · CE(rotation logits, the synthetic rotation labels
0, 1, 2, 3 per source image). -/
theorem rotation_batch_loss_formula {c n : ℕ} {F S : Type}
    (model : List (Image c n) → F × S) (rotate_classifier : F → S)
    (lossfn : S → List ℕ → ℚ) (batch : List (Image c n × ℕ)) :
    rotationBatchLoss model rotate_classifier lossfn batch =
      1 / 2 * lossfn (model (rotAugment batch).1).2
          (batch.flatMap (fun p => [p.2, p.2, p.2, p.2])) +
      1 / 2 * lossfn (rotate_classifier (model (rotAugment batch).1).1)
          (batch.flatMap (fun _ => [0, 1, 2, 3])) := by
  rw [rotationBatchLoss, rotAugment_class_labels, rotAugment_rot_labels]

theorem filter_lt_range (m k : ℕ) :
    (List.range k).filter (fun i => decide (i < m)) = List.range (min m k) := by
  induction k with
  | zero => simp
  | succ k' ih =>
    rw [List.range_succ, List.filter_append, ih]
    by_cases h : k' < m
    · have h1 : min m k' = k' := by omega
      have h2 : min m (k' + 1) = k' + 1 := by omega
      simp [h, h1, h2, List.range_succ]
    · have h1 : min m (k' + 1) = min m k' := by omega
      simp [h, h1]

/-- C6: on a held-out stream of n batches, the rotation driver's
evaluation processes exactly the first min(10, n) batches each epoch; it
covers the whole stream only when n ≤ 10. -/
theorem rotation_eval_subsample (n : ℕ) :
    rotationEvalBatches n = List.range (min 10 n) ∧
    (rotationEvalBatches n).length = min 10 n ∧
    ((rotationEvalBatches n).length = n ↔ n ≤ 10) := by
  have h := filter_lt_range 10 n
  refine ⟨h, ?_, ?_⟩
  · rw [rotationEvalBatches, h, List.length_range]
  · rw [rotationEvalBatches, h, List.length_range]
    omega

/-- C7: for any model name outside {WideResNet28_10, ResNet18} and any
method name outside {S2M2_R, rotation}, every dispatch returns `none`
(the variable stays undefined) rather than signalling an error at the
dispatch point: the failure can only surface at the variable's first
use. -/
theorem dispatch_silent_fallthrough (modelName methodName : String)
    (hm1 : modelName ≠ "WideResNet28_10") (hm2 : modelName ≠ "ResNet18")
    (hq1 : methodName ≠ "S2M2_R") (hq2 : methodName ≠ "rotation") :
    selectModel modelName = none ∧
    selectRotateClassifierDim modelName = none ∧
    selectMethod methodName = none := by
  simp [selectModel, selectRotateClassifierDim, selectMethod, hm1, hm2, hq1, hq2]

/-- Witness for C7 at unsupported flag values. -/
theorem dispatch_silent_fallthrough_witness :
    ("ConvNet4" : String) ≠ "WideResNet28_10" ∧
    ("ConvNet4" : String) ≠ "ResNet18" ∧
    ("baseline" : String) ≠ "S2M2_R" ∧
    ("baseline" : String) ≠ "rotation" ∧
    (selectModel "ConvNet4" = none ∧
     selectRotateClassifierDim "ConvNet4" = none ∧
     selectMethod "baseline" = none) :=
  ⟨by decide, by decide, by decide, by decide,
    dispatch_silent_fallthrough "ConvNet4" "baseline"
      (by decide) (by decide) (by decide) (by decide)⟩

/-- C8: whatever checkpoint the rotation run resumes from — even one
holding a 'rotate' entry — the entry point passes `None` as the
saved-state argument, so `train_rotation` never loads saved parameters
into the rotation head. -/
theorem rotation_branch_passes_none (resume : Bool)
    (loaded : CheckpointRecord) (paramsStartEpoch : ℕ) :
    (rotationBranchArgs resume loaded paramsStartEpoch).2 = none ∧
    rotateHeadLoadsSaved (rotationBranchArgs resume loaded paramsStartEpoch).2
      = false :=
  ⟨rfl, rfl⟩

/-- C10: saving either driver's record at epoch E and loading it back
yields the identical record — the same epoch E, the same model
parameters, and (rotation driver) the same auxiliary-head parameters. -/
theorem checkpoint_roundtrip (store : ℕ → Option CheckpointRecord) (E : ℕ)
    (modelState rotateState : StateDict) :
    torchLoad (torchSave store E (mixupCheckpointRecord E modelState)) E =
      some (mixupCheckpointRecord E modelState) ∧
    (mixupCheckpointRecord E modelState).epoch = E ∧
    (mixupCheckpointRecord E modelState).state = modelState ∧
    torchLoad (torchSave store E
        (rotationCheckpointRecord E modelState rotateState)) E =
      some (rotationCheckpointRecord E modelState rotateState) ∧
    (rotationCheckpointRecord E modelState rotateState).epoch = E ∧
    (rotationCheckpointRecord E modelState rotateState).state = modelState ∧
    (rotationCheckpointRecord E modelState rotateState).rotate =
      some rotateState := by
  refine ⟨?_, rfl, rfl, ?_, rfl, rfl, rfl⟩ <;> simp [torchLoad, torchSave]
